import Mathlib

/-!
Verification of the Studien-Dashboard data model (src/studien-dashboard.py).

Shallow embedding conventions:
* Python `float` grade values are embedded as exact decimals in integer
  tenths of a grade point (`ℤ`): the literal `2.3` becomes `23`.  Every grade
  value occurring in the program is an exact multiple of 0.1, and the scaling
  is linear, so sums, credit-weighted sums and order comparisons carry over
  unchanged.  Python's `round(x, 1)` is embedded as round-half-to-even of the
  exact value to the nearest tenth (`roundHalfEvenFrac`).  This agrees with
  the program's float evaluation at every quotient that is not an exact
  midpoint between two tenths: away from a midpoint the accumulated double
  error (at most a few ulps) is far smaller than the distance to the
  midpoint, so rounding the double and rounding the exact value pick the
  same tenth under any round-to-nearest rule.  At an exact midpoint CPython
  rounds the computed double, which lies strictly on one side of the
  midpoint determined by the binary representation, so the float result can
  be either adjacent tenth and may differ from half-to-even of the exact
  value.  Accordingly, every theorem below whose truth could depend on a
  midpoint tie either carries explicit tie-freedom hypotheses
  (`modulMeanTieFree`, `semTieFree`) or evaluates a concrete run on which
  the float behaviour at the tie has been checked (the 2.65 quotient of the
  C5 counterexample, where the nearest double lies below 2.65 and CPython
  also answers 2.6).
* Python `None` becomes `Option.none`; a nullable value becomes `Option`.
* `datetime.date` is embedded as a year/month/day triple; `isoformat` is
  embedded as the corresponding zero-padded string rendering.
* Mutating methods become functions returning the updated value; a method
  that can raise is embedded with an explicit error component.
-/

namespace StudienDashboard

/-- Round-half-to-even of the fraction `num / den` (with `den > 0`) to the
nearest integer.  Applied to a grade sum in tenths and a positive count (or
a weighted sum and a credit total), it embeds Python's
`round(sum_in_units / total, 1)` expressed in tenths; as explained in the
header, the embedding is exact except possibly when `num / den` is an exact
midpoint (`2 * rest = den`), where CPython rounds the computed double and
may answer the other adjacent tenth. -/
def roundHalfEvenFrac (num den : ℤ) : ℤ :=
  let f : ℤ := Int.fdiv num den
  let rest : ℤ := num - f * den
  if 2 * rest < den then f
  else if den < 2 * rest then f + 1
  else if f % 2 = 0 then f else f + 1

/-- Round-to-nearest of `num / den` (with `den > 0`) with ties toward +∞.
Used on the *specification* side of the C5 refinement theorem: on tie-free
inputs every round-to-nearest rule (this one, half-to-even, and CPython's
rounding of the computed double) coincides, so stating the specification
formula with a different tie rule makes the implementation/specification
equality provable exactly on the domain where the embedding is faithful. -/
def roundHalfUpFrac (num den : ℤ) : ℤ :=
  let f : ℤ := Int.fdiv num den
  let rest : ℤ := num - f * den
  if 2 * rest < den then f else f + 1

/-- Whether `num / den` (with `den > 0`) is an exact midpoint between two
consecutive integers — the only case in which the rounding embedding can
deviate from the program's float evaluation. -/
def roundTie (num den : ℤ) : Bool :=
  let f : ℤ := Int.fdiv num den
  decide (2 * (num - f * den) = den)

/-- The exact rational grade value denoted by an integer number of tenths
(used only to relate integer-tenths results to the decimal literals of the
source and its specification). -/
def gradeValue (tenths : ℤ) : ℚ :=
  (tenths : ℚ) / 10

/-- Decimal rendering of a grade given in tenths (`23` ↦ `"2.3"`), matching
how Python prints the one-decimal grade floats of this program. -/
def tenthsRepr (v : ℤ) : String :=
  (if v < 0 then "-" else "") ++
    toString (v.natAbs / 10) ++ "." ++ toString (v.natAbs % 10)

/-- The grade table `IUBewertungsmaßstab.NOTEN_SKALA` (grade value in tenths,
label). -/
def NOTEN_SKALA : List (ℤ × String) :=
  [(10, "Sehr gut"), (13, "Sehr gut"),
   (17, "Gut"), (20, "Gut"), (23, "Gut"),
   (27, "Befriedigend"), (30, "Befriedigend"), (33, "Befriedigend"),
   (37, "Ausreichend"), (40, "Ausreichend"),
   (50, "Nicht ausreichend")]

/-- `IUBewertungsmaßstab.BESTANDEN_GRENZE` (4.0, in tenths). -/
def BESTANDEN_GRENZE : ℤ := 40

/-- `IUBewertungsmaßstab.ist_bestanden`: a grade passes iff it is at most the
threshold. -/
def IUBewertungsmassstab.ist_bestanden (note : ℤ) : Bool :=
  decide (note ≤ BESTANDEN_GRENZE)

/-- `IUBewertungsmaßstab.gueltige_noten`: the permitted grade values (the keys
of the grade table). -/
def gueltige_noten : List ℤ :=
  NOTEN_SKALA.map Prod.fst

/-- `PruefungsleistungsTyp` enum. -/
inductive PruefungsleistungsTyp
  | KLAUSUR
  | ADVANCED_WORKBOOK
  | Portfolio
deriving DecidableEq

/-- The `.value` string of a `PruefungsleistungsTyp` member. -/
def PruefungsleistungsTyp.value : PruefungsleistungsTyp → String
  | .KLAUSUR => "Klausur"
  | .ADVANCED_WORKBOOK => "Advanced Workbook"
  | .Portfolio => "Portfolio"

/-- `StudiengangTyp` enum. -/
inductive StudiengangTyp
  | BACHELOR
  | MASTER
  | MBA
deriving DecidableEq

/-- The `.value` string of a `StudiengangTyp` member. -/
def StudiengangTyp.value : StudiengangTyp → String
  | .BACHELOR => "Bachelor"
  | .MASTER => "Master"
  | .MBA => "MBA"

/-- `ModulStatus` enum. -/
inductive ModulStatus
  | NICHT_BEGONNEN
  | IN_BEARBEITUNG
  | BESTANDEN
  | NICHT_BESTANDEN
deriving DecidableEq

/-- The `.value` string of a `ModulStatus` member. -/
def ModulStatus.value : ModulStatus → String
  | .NICHT_BEGONNEN => "Nicht begonnen"
  | .IN_BEARBEITUNG => "In Bearbeitung"
  | .BESTANDEN => "Bestanden"
  | .NICHT_BESTANDEN => "Nicht bestanden"

/-- Embedding of `datetime.date`. -/
structure Date where
  year : ℕ
  month : ℕ
  day : ℕ
deriving DecidableEq

/-- Strict calendar order on dates (lexicographic on year, month, day). -/
def Date.lt (a b : Date) : Bool :=
  if a.year < b.year then true
  else if b.year < a.year then false
  else if a.month < b.month then true
  else if b.month < a.month then false
  else decide (a.day < b.day)

/-- Zero-pad a numeral to two digits. -/
def pad2 (n : ℕ) : String :=
  if n < 10 then "0" ++ toString n else toString n

/-- Zero-pad a numeral to four digits. -/
def pad4 (n : ℕ) : String :=
  (if n < 10 then "000" else if n < 100 then "00"
   else if n < 1000 then "0" else "") ++ toString n

/-- Embedding of `date.isoformat()`. -/
def Date.isoformat (d : Date) : String :=
  pad4 d.year ++ "-" ++ pad2 d.month ++ "-" ++ pad2 d.day

/-- The kind-specific subclass fields of `Pruefungsleistung` (the abstract
base plus its three subclasses is embedded as a tagged payload). -/
inductive PruefungsDetails
  | klausur (dauer_minuten : ℤ)
  | advancedWorkbook (bearbeitungszeit_wochen : ℤ)
  | portfolio (anzahl_aufgaben : ℤ) (bearbeitungszeit_wochen : ℤ)
deriving DecidableEq

/-- Embedding of `Pruefungsleistung`.  The field `note` embeds the private
attribute `_note` (the property getter returns it unchanged); `status` is the
string field set by `__init__` and the `note` setter. -/
structure Pruefungsleistung where
  typ : PruefungsleistungsTyp
  note : Option ℤ
  datum : Option Date
  versuch : ℤ
  status : String
  details : PruefungsDetails
deriving DecidableEq

/-- `Pruefungsleistung.__init__`: stores the initial grade directly into
`_note` (the validating property setter is not invoked) and sets the status
field to "Offen" unconditionally. -/
def Pruefungsleistung.make (typ : PruefungsleistungsTyp) (note : Option ℤ)
    (datum : Option Date) (versuch : ℤ) (details : PruefungsDetails) :
    Pruefungsleistung :=
  { typ := typ, note := note, datum := datum, versuch := versuch,
    status := "Offen", details := details }

/-- `Klausur.__init__` (defaults in the source: `dauer_minuten=120`). -/
def Klausur.make (dauer_minuten : ℤ) (note : Option ℤ) (datum : Option Date)
    (versuch : ℤ) : Pruefungsleistung :=
  Pruefungsleistung.make .KLAUSUR note datum versuch (.klausur dauer_minuten)

/-- `AdvancedWorkbook.__init__` (default `bearbeitungszeit_wochen=4`). -/
def AdvancedWorkbook.make (bearbeitungszeit_wochen : ℤ) (note : Option ℤ)
    (datum : Option Date) (versuch : ℤ) : Pruefungsleistung :=
  Pruefungsleistung.make .ADVANCED_WORKBOOK note datum versuch
    (.advancedWorkbook bearbeitungszeit_wochen)

/-- `Portfolio.__init__` (defaults `anzahl_aufgaben=3`,
`bearbeitungszeit_wochen=8`). -/
def Portfolio.make (anzahl_aufgaben : ℤ) (bearbeitungszeit_wochen : ℤ)
    (note : Option ℤ) (datum : Option Date) (versuch : ℤ) :
    Pruefungsleistung :=
  Pruefungsleistung.make .Portfolio note datum versuch
    (.portfolio anzahl_aufgaben bearbeitungszeit_wochen)

/-- The `note` property setter.  Python raises `ValueError` before any field
write, so on the error path the object is unchanged; the result pairs the
raised message (if any) with the object state after the call. -/
def Pruefungsleistung.setNote (pl : Pruefungsleistung) (value : Option ℤ) :
    Option String × Pruefungsleistung :=
  match value with
  | some v =>
    if v ∉ gueltige_noten then
      (some ("Ungültige Note: " ++ tenthsRepr v), pl)
    else
      let st : String :=
        if IUBewertungsmassstab.ist_bestanden v then "Bestanden"
        else "Nicht bestanden"
      (none, { pl with note := some v, status := st })
  | none => (none, { pl with note := none, status := "Offen" })

/-- `Pruefungsleistung.ist_bestanden`. -/
def Pruefungsleistung.ist_bestanden (pl : Pruefungsleistung) : Bool :=
  match pl.note with
  | some n => IUBewertungsmassstab.ist_bestanden n
  | none => false

/-- `Pruefungsleistung.wurde_abgelegt`. -/
def Pruefungsleistung.wurde_abgelegt (pl : Pruefungsleistung) : Bool :=
  pl.note.isSome

/-- The dictionary returned by the subclasses' `get_details`. -/
inductive DetailsDict
  | klausur (dauer_minuten : ℤ) (beschreibung : String)
  | advancedWorkbook (bearbeitungszeit_wochen : ℤ) (beschreibung : String)
  | portfolio (anzahl_aufgaben : ℤ) (bearbeitungszeit_wochen : ℤ)
      (beschreibung : String)
deriving DecidableEq

/-- `get_details`, dispatched over the subclass payload. -/
def Pruefungsleistung.get_details (pl : Pruefungsleistung) : DetailsDict :=
  match pl.details with
  | .klausur d => .klausur d ("Klausur (" ++ toString d ++ " Min.)")
  | .advancedWorkbook w =>
      .advancedWorkbook w ("Advanced Workbook (" ++ toString w ++ " Wochen)")
  | .portfolio a w => .portfolio a w ("Portfolio (" ++ toString a ++ " Aufgaben)")

/-- The dictionary returned by `Pruefungsleistung.to_dict`. -/
structure PruefungsleistungDict where
  typ : String
  note : Option ℤ
  datum : Option String
  versuch : ℤ
  status : String
  details : DetailsDict
deriving DecidableEq

/-- `Pruefungsleistung.to_dict`. -/
def Pruefungsleistung.to_dict (pl : Pruefungsleistung) : PruefungsleistungDict :=
  { typ := pl.typ.value, note := pl.note,
    datum := pl.datum.map Date.isoformat, versuch := pl.versuch,
    status := pl.status, details := pl.get_details }

/-- Embedding of `Modul`. -/
structure Modul where
  titel : String
  ects : ℤ
  pflicht : Bool
  pruefungsleistungen : List Pruefungsleistung
deriving DecidableEq

/-- `Modul.__init__`: starts with an empty assessments list. -/
def Modul.make (titel : String) (ects : ℤ) (pflicht : Bool) : Modul :=
  { titel := titel, ects := ects, pflicht := pflicht, pruefungsleistungen := [] }

/-- `Modul.add_pruefungsleistung`: appends. -/
def Modul.add_pruefungsleistung (m : Modul) (pl : Pruefungsleistung) : Modul :=
  { m with pruefungsleistungen := m.pruefungsleistungen ++ [pl] }

/-- `Modul.ist_bestanden`: false on an empty list, else all assessments
passed. -/
def Modul.ist_bestanden (m : Modul) : Bool :=
  if m.pruefungsleistungen.isEmpty then false
  else m.pruefungsleistungen.all fun pl => pl.ist_bestanden

/-- `Modul.get_status`. -/
def Modul.get_status (m : Modul) : ModulStatus :=
  if m.pruefungsleistungen.isEmpty then .NICHT_BEGONNEN
  else if m.pruefungsleistungen.all fun pl => pl.wurde_abgelegt then
    if m.ist_bestanden then .BESTANDEN else .NICHT_BESTANDEN
  else .IN_BEARBEITUNG

/-- `Modul.erreichte_ects`. -/
def Modul.erreichte_ects (m : Modul) : ℤ :=
  if m.ist_bestanden then m.ects else 0

/-- `Modul.get_durchschnittsnote`: mean of the non-null grades rounded to one
decimal, or null when there is none (`round(Σ/len, 1)` in units is
`roundHalfEvenFrac Σ len` in tenths; exact except possibly at a midpoint
mean such as grades [3.0, 3.3] — see the header note and
`modulMeanTieFree`). -/
def Modul.get_durchschnittsnote (m : Modul) : Option ℤ :=
  let noten := m.pruefungsleistungen.filterMap fun pl => pl.note
  if noten.isEmpty then none
  else some (roundHalfEvenFrac noten.sum (noten.length : ℤ))

/-- The dictionary returned by `Modul.to_dict`. -/
structure ModulDict where
  titel : String
  ects : ℤ
  pflicht : Bool
  status : String
  durchschnittsnote : Option ℤ
  pruefungsleistungen : List PruefungsleistungDict
deriving DecidableEq

/-- `Modul.to_dict`. -/
def Modul.to_dict (m : Modul) : ModulDict :=
  { titel := m.titel, ects := m.ects, pflicht := m.pflicht,
    status := m.get_status.value,
    durchschnittsnote := m.get_durchschnittsnote,
    pruefungsleistungen := m.pruefungsleistungen.map Pruefungsleistung.to_dict }

/-- Embedding of `Semester`. -/
structure Semester where
  nummer : ℤ
  startdatum : Date
  enddatum : Date
  module : List Modul
deriving DecidableEq

/-- `Semester.__init__`: stores the sequence number and the two dates as
given — the constructor performs no validation of any kind — and starts with
an empty module list. -/
def Semester.make (nummer : ℤ) (startdatum enddatum : Date) : Semester :=
  { nummer := nummer, startdatum := startdatum, enddatum := enddatum,
    module := [] }

/-- `Semester.add_modul`: appends. -/
def Semester.add_modul (s : Semester) (m : Modul) : Semester :=
  { s with module := s.module ++ [m] }

/-- `Semester.erreichte_ects`. -/
def Semester.erreichte_ects (s : Semester) : ℤ :=
  (s.module.map fun m => m.erreichte_ects).sum

/-- `Semester.gesamt_ects_semester`. -/
def Semester.gesamt_ects_semester (s : Semester) : ℤ :=
  (s.module.map fun m => m.ects).sum

/-- The loop body shared by `Semester.durchschnittsnote` and
`Studiengang.berechne_gesamtnote` (the two Python loops have the identical
body): a passed module with a non-null average adds average×ects to the
weighted sum and ects to the credit total. -/
def semStep (acc : ℤ × ℤ) (modul : Modul) : ℤ × ℤ :=
  if modul.ist_bestanden then
    match modul.get_durchschnittsnote with
    | some note => (acc.1 + note * modul.ects, acc.2 + modul.ects)
    | none => acc
  else acc

/-- `Semester.durchschnittsnote` (`round(ws/total, 1)` in units is
`roundHalfEvenFrac ws total` in tenths; exact except possibly at a midpoint
quotient — see the header note and `semTieFree`). -/
def Semester.durchschnittsnote (s : Semester) : Option ℤ :=
  let acc := s.module.foldl semStep ((0 : ℤ), (0 : ℤ))
  if 0 < acc.2 then some (roundHalfEvenFrac acc.1 acc.2) else none

/-- The dictionary returned by `Semester.to_dict`. -/
structure SemesterDict where
  nummer : ℤ
  startdatum : String
  enddatum : String
  gesamt_ects : ℤ
  erreichte_ects : ℤ
  durchschnittsnote : Option ℤ
  module : List ModulDict
deriving DecidableEq

/-- `Semester.to_dict`. -/
def Semester.to_dict (s : Semester) : SemesterDict :=
  { nummer := s.nummer,
    startdatum := s.startdatum.isoformat,
    enddatum := s.enddatum.isoformat,
    gesamt_ects := s.gesamt_ects_semester,
    erreichte_ects := s.erreichte_ects,
    durchschnittsnote := s.durchschnittsnote,
    module := s.module.map Modul.to_dict }

/-- Embedding of `Studiengang`. -/
structure Studiengang where
  name : String
  abschluss : String
  typ : StudiengangTyp
  start_studium : Date
  ziel_note : ℤ
  ziel_dauer_semester : ℤ
  semester : List Semester
deriving DecidableEq

/-- `Studiengang.__init__`. -/
def Studiengang.make (name abschluss : String) (typ : StudiengangTyp)
    (start_studium : Date) (ziel_note : ℤ) (ziel_dauer_semester : ℤ) :
    Studiengang :=
  { name := name, abschluss := abschluss, typ := typ,
    start_studium := start_studium, ziel_note := ziel_note,
    ziel_dauer_semester := ziel_dauer_semester, semester := [] }

/-- `Studiengang.add_semester`: appends. -/
def Studiengang.add_semester (sg : Studiengang) (s : Semester) : Studiengang :=
  { sg with semester := sg.semester ++ [s] }

/-- `Studiengang.berechne_gesamt_ects`. -/
def Studiengang.berechne_gesamt_ects (sg : Studiengang) : ℤ :=
  (sg.semester.map fun s => s.erreichte_ects).sum

/-- `Studiengang.berechne_gesamtnote`: the same accumulation as
`Semester.durchschnittsnote`, but over all modules of all semesters (same
midpoint caveat as there; the sample run of C1 is tie-free). -/
def Studiengang.berechne_gesamtnote (sg : Studiengang) : Option ℤ :=
  let acc := sg.semester.foldl
    (fun acc sem => sem.module.foldl semStep acc) ((0 : ℤ), (0 : ℤ))
  if 0 < acc.2 then some (roundHalfEvenFrac acc.1 acc.2) else none

/-- `Studiengang.ist_im_zeitplan`: number of semesters so far at most the
target duration. -/
def Studiengang.ist_im_zeitplan (sg : Studiengang) : Bool :=
  decide ((sg.semester.length : ℤ) ≤ sg.ziel_dauer_semester)

/-- `Studiengang.ziel_erreicht`: overall grade is non-null and at most the
target grade. -/
def Studiengang.ziel_erreicht (sg : Studiengang) : Bool :=
  match sg.berechne_gesamtnote with
  | some gesamtnote => decide (gesamtnote ≤ sg.ziel_note)
  | none => false

/-- The dictionary returned by `Studiengang.to_dict`. -/
structure StudiengangDict where
  name : String
  abschluss : String
  typ : String
  start_studium : String
  ziel_note : ℤ
  ziel_dauer_semester : ℤ
  gesamt_ects : ℤ
  gesamtnote : Option ℤ
  im_zeitplan : Bool
  ziel_erreicht : Bool
  semester : List SemesterDict
deriving DecidableEq

/-- `Studiengang.to_dict`. -/
def Studiengang.to_dict (sg : Studiengang) : StudiengangDict :=
  { name := sg.name, abschluss := sg.abschluss, typ := sg.typ.value,
    start_studium := sg.start_studium.isoformat,
    ziel_note := sg.ziel_note,
    ziel_dauer_semester := sg.ziel_dauer_semester,
    gesamt_ects := sg.berechne_gesamt_ects,
    gesamtnote := sg.berechne_gesamtnote,
    im_zeitplan := sg.ist_im_zeitplan,
    ziel_erreicht := sg.ziel_erreicht,
    semester := sg.semester.map Semester.to_dict }

/-- Embedding of `User`.  The wall-clock creation timestamp `erstellt_am`
(`datetime.now()`) is display-only metadata read by no computation and is not
embedded. -/
structure User where
  user_id : String
  name : String
  email : String
  rolle : String
  studiengaenge : List Studiengang
deriving DecidableEq

/-- `User.__init__`: starts with an empty program list. -/
def User.make (user_id name email rolle : String) : User :=
  { user_id := user_id, name := name, email := email, rolle := rolle,
    studiengaenge := [] }

/-- `User.add_studiengang`: appends. -/
def User.add_studiengang (u : User) (sg : Studiengang) : User :=
  { u with studiengaenge := u.studiengaenge ++ [sg] }

/-- `User.get_aktueller_studiengang`: the last program added, if any. -/
def User.get_aktueller_studiengang (u : User) : Option Studiengang :=
  u.studiengaenge.getLast?

/-- The `user` sub-dictionary of `User.zeige_dashboard`. -/
structure UserInfoDict where
  name : String
  email : String
  rolle : String
deriving DecidableEq

/-- The `fortschritt` sub-dictionary of `User.zeige_dashboard`. -/
structure FortschrittDict where
  gesamt_ects : ℤ
  gesamtnote : Option ℤ
  im_zeitplan : Bool
  ziel_erreicht : Bool
deriving DecidableEq

/-- The dictionary returned by `User.zeige_dashboard`: either the error
record `{"error": ...}` or the full snapshot with the three sections. -/
inductive DashboardDict
  | error (msg : String)
  | data (user : UserInfoDict) (studiengang : StudiengangDict)
      (fortschritt : FortschrittDict)
deriving DecidableEq

/-- `User.zeige_dashboard`. -/
def User.zeige_dashboard (u : User) : DashboardDict :=
  match u.get_aktueller_studiengang with
  | none => .error "Kein Studiengang gefunden"
  | some sg =>
    .data
      { name := u.name, email := u.email, rolle := u.rolle }
      sg.to_dict
      { gesamt_ects := sg.berechne_gesamt_ects,
        gesamtnote := sg.berechne_gesamtnote,
        im_zeitplan := sg.ist_im_zeitplan,
        ziel_erreicht := sg.ziel_erreicht }

/-- Replace-or-append update of an association list; this is the effect of a
Python dict assignment `d[k] = v` (insertion order kept, existing key
overwritten in place). -/
def upsert : List (String × User) → String → User → List (String × User)
  | [], k, v => [(k, v)]
  | (k0, v0) :: rest, k, v =>
      if k0 = k then (k, v) :: rest else (k0, v0) :: upsert rest k v

/-- Embedding of `DashboardController`.  Python's `current_user` holds a
reference to a `User` object also stored in `users`; user objects are
embedded by value, and every state change made through the controller writes
through both references, which matches the Python heap exactly as long as the
`users` entry aliased by `current_user` has not been replaced since login
(true in every execution considered below). -/
structure DashboardController where
  users : List (String × User)
  current_user : Option User
deriving DecidableEq

/-- `DashboardController.__init__`. -/
def DashboardController.make : DashboardController :=
  { users := [], current_user := none }

/-- `DashboardController.create_user`: unconditionally constructs the user,
stores it under its id (a plain dict assignment, so an existing entry with
the same id is silently replaced) and returns it.  There is no duplicate
check and no error path. -/
def DashboardController.create_user (c : DashboardController)
    (user_id name email rolle : String) : DashboardController × User :=
  let user := User.make user_id name email rolle
  ({ c with users := upsert c.users user_id user }, user)

/-- `DashboardController.login_user`. -/
def DashboardController.login_user (c : DashboardController)
    (user_id : String) : DashboardController × Bool :=
  match c.users.lookup user_id with
  | some u => ({ c with current_user := some u }, true)
  | none => (c, false)

/-- `DashboardController.create_studiengang`: `None` without a logged-in
user; otherwise constructs the program and attaches it to the current user
(in Python by mutating the shared `User` object; here by writing the updated
user through both references). -/
def DashboardController.create_studiengang (c : DashboardController)
    (name abschluss : String) (typ : StudiengangTyp) (start_studium : Date)
    (ziel_note : ℤ) (ziel_dauer_semester : ℤ) :
    DashboardController × Option Studiengang :=
  match c.current_user with
  | none => (c, none)
  | some u =>
    let sg := Studiengang.make name abschluss typ start_studium ziel_note
      ziel_dauer_semester
    let u2 := u.add_studiengang sg
    ({ c with current_user := some u2, users := upsert c.users u2.user_id u2 },
     some sg)

/-- `DashboardController.get_dashboard_data`: `None` without a logged-in
user, else the current user's dashboard dictionary. -/
def DashboardController.get_dashboard_data (c : DashboardController) :
    Option DashboardDict :=
  match c.current_user with
  | none => none
  | some u => some u.zeige_dashboard

/-!
The hardcoded sample data of `create_iu_medizinische_informatik_data`.  The
Python builder constructs the graph imperatively, mutating objects through
controller-returned aliases (`create_user` + `login_user`, then
`create_studiengang`, `add_semester`, `add_modul`, `add_pruefungsleistung`);
its assessments are produced by the `create_pruefungsleistung` factory, whose
only effect is to dispatch on the kind enum to the subclass constructor with
the given keyword arguments.  The definitions below build, constructor call
by constructor call in source order, the final object graph that this run
produces; omitted keyword arguments take the source defaults (`versuch=1`,
`note=None`, `datum=None`). -/

/-- Assessment of the sample module "Einführung in das wissenschaftliche
Arbeiten für IT und Technik" (Advanced Workbook, 6 weeks, grade 2.0). -/
def sample_workbook_wiss : Pruefungsleistung :=
  AdvancedWorkbook.make 6 (some 20) (some ⟨2025, 3, 29⟩) 1

/-- Sample module 1 (5 ECTS, Pflicht, one graded workbook). -/
def sample_einfuehrung_wiss : Modul :=
  (Modul.make "Einführung in das wissenschaftliche Arbeiten für IT und Technik"
    5 true).add_pruefungsleistung sample_workbook_wiss

/-- Assessment of "Medizin für Nichtmediziner:innen I" (90-minute exam,
grade 3.3). -/
def sample_klausur_med : Pruefungsleistung :=
  Klausur.make 90 (some 33) (some ⟨2024, 12, 10⟩) 1

/-- Sample module 2. -/
def sample_medizin_nichtmed : Modul :=
  (Modul.make "Medizin für Nichtmediziner:innen I" 5
    true).add_pruefungsleistung sample_klausur_med

/-- Assessment of "Einführung in die Programmierung mit Python" (90-minute
exam, grade 2.0). -/
def sample_klausur_prog : Pruefungsleistung :=
  Klausur.make 90 (some 20) (some ⟨2025, 3, 1⟩) 1

/-- Sample module 3. -/
def sample_programmierung_python : Modul :=
  (Modul.make "Einführung in die Programmierung mit Python" 5
    true).add_pruefungsleistung sample_klausur_prog

/-- Assessment of "E-Health" (90-minute exam, grade 2.0). -/
def sample_klausur_ehealth : Pruefungsleistung :=
  Klausur.make 90 (some 20) (some ⟨2025, 2, 1⟩) 1

/-- Sample module 4. -/
def sample_ehealth : Modul :=
  (Modul.make "E-Health" 5 true).add_pruefungsleistung sample_klausur_ehealth

/-- Assessment of the project module: a Portfolio with 4 tasks over 6 weeks
and no grade set (still in progress). -/
def sample_portfolio_oop : Pruefungsleistung :=
  Portfolio.make 4 6 none none 1

/-- Sample module 5 (ungraded portfolio). -/
def sample_projekt_oop : Modul :=
  (Modul.make
    "Projekt: Objektorientierte und funktionale Programmierung mit Python"
    5 true).add_pruefungsleistung sample_portfolio_oop

/-- The sample first semester with its five modules in insertion order. -/
def sample_semester1 : Semester :=
  Semester.make 1 ⟨2025, 1, 1⟩ ⟨2025, 6, 30⟩
    |>.add_modul sample_einfuehrung_wiss
    |>.add_modul sample_medizin_nichtmed
    |>.add_modul sample_programmierung_python
    |>.add_modul sample_ehealth
    |>.add_modul sample_projekt_oop

/-- The sample program: target grade 2.0 (20 tenths), target duration 8
semesters, one semester attached. -/
def sample_studiengang : Studiengang :=
  (Studiengang.make "Medizinische Informatik" "Bachelor of Science"
    .BACHELOR ⟨2025, 1, 1⟩ 20 8).add_semester sample_semester1

/-- The sample student owning the sample program. -/
def sample_user : User :=
  (User.make "IU14125513" "Christine Münzberg" "christine_muenzberg@web.de"
    "Student").add_studiengang sample_studiengang

/-- `create_iu_medizinische_informatik_data`: the controller state at the end
of the builder — the sample user registered under its id and logged in. -/
def create_iu_medizinische_informatik_data : DashboardController :=
  { users := [("IU14125513", sample_user)], current_user := some sample_user }

/-- The module predicate selecting the contributors of the weighted-average
loops: passed and carrying a non-null average grade. -/
def passedWithNote (m : Modul) : Bool :=
  m.ist_bestanden && m.get_durchschnittsnote.isSome

/-- Tie-freedom of a module's mean: the module either has no grades or the
exact mean of its grades is not a midpoint between two tenths.  On such
modules the embedded `get_durchschnittsnote` provably matches the program's
float evaluation (header note). -/
def modulMeanTieFree (m : Modul) : Bool :=
  let noten := m.pruefungsleistungen.filterMap fun pl => pl.note
  noten.isEmpty || !(roundTie noten.sum (noten.length : ℤ))

/-- Tie-freedom of a semester's weighted quotient: either no module
contributes, or the exact quotient of the weighted grade sum by the credit
total is not a midpoint between two tenths. -/
def semTieFree (s : Semester) : Bool :=
  let P := s.module.filter passedWithNote
  P.isEmpty ||
    !(roundTie ((P.map fun m => m.get_durchschnittsnote.getD 0 * m.ects).sum)
      ((P.map fun m => m.ects).sum))

/-- The module average-grade formula as the specification words it — mean of
the non-null grades rounded to one decimal — stated on the specification
side with the half-up tie rule, so that agreement with the implementation's
`get_durchschnittsnote` expresses exactly that the mean is rounded to the
nearest tenth, independently of any tie rule. -/
def spec_averageGrade (m : Modul) : Option ℤ :=
  let noten := m.pruefungsleistungen.filterMap fun pl => pl.note
  if noten.isEmpty then none
  else some (roundHalfUpFrac noten.sum (noten.length : ℤ))

/-- The specification's selection predicate: passed modules with a non-null
average grade (stated with the specification-side average). -/
def spec_passedWithNote (m : Modul) : Bool :=
  m.ist_bestanden && (spec_averageGrade m).isSome

/-- The Term weighted-average formula as the specification words it:
(Σ over passed Modules with a non-null average grade of average×credits)
/ (Σ credits of those same Modules), rounded to one decimal, or null if no
such Modules exist.  Built entirely from specification-side pieces
(`spec_averageGrade`, `spec_passedWithNote`, half-up rounding) so that the
C5 theorem equating it with the loop implementation
`Semester.durchschnittsnote` is a genuine refinement statement, provable
exactly on the tie-free domain where the two tie rules — and the program's
float rounding — coincide. -/
def spec_weightedAverageGrade (s : Semester) : Option ℤ :=
  let P := s.module.filter spec_passedWithNote
  if P.isEmpty then none
  else some (roundHalfUpFrac
    ((P.map fun m => (spec_averageGrade m).getD 0 * m.ects).sum)
    ((P.map fun m => m.ects).sum))

/-- A registry state already holding a student with id "IU14125513" (used to
exercise `create_user` on a duplicate id). -/
def duplicate_id_state : DashboardController :=
  (DashboardController.make.create_user "IU14125513" "Erste Person"
    "erste@example.com" "Student").1

/-- A module with a single passed exam graded 2.0 and 5 credits (the first
module of the specification's Term weighted-average example). -/
def exampleModulA : Modul :=
  (Modul.make "Modul A" 5 true).add_pruefungsleistung
    (Klausur.make 120 (some 20) none 1)

/-- A module with a single passed exam graded 3.3 and 5 credits (the second
module of the specification's Term weighted-average example). -/
def exampleModulB : Modul :=
  (Modul.make "Modul B" 5 true).add_pruefungsleistung
    (Klausur.make 120 (some 33) none 1)

/-- The specification's Term weighted-average example: two passed modules
with credits 5 / average 2.0 and credits 5 / average 3.3. -/
def exampleSemester : Semester :=
  ((Semester.make 1 ⟨2025, 1, 1⟩ ⟨2025, 6, 30⟩).add_modul
    exampleModulA).add_modul exampleModulB

/-- A student owning no program. -/
def no_program_user : User :=
  User.make "IU00000001" "Ohne Studiengang" "leer@example.com" "Student"

/-- A registry state whose logged-in student owns no program. -/
def no_program_state : DashboardController :=
  { users := [("IU00000001", no_program_user)],
    current_user := some no_program_user }

/-! Helper lemmas. -/

/-- A dict assignment stores its value: looking the key up after `upsert`
yields exactly the value just written. -/
theorem lookup_upsert (l : List (String × User)) (k : String) (v : User) :
    (upsert l k v).lookup k = some v := by
  induction l with
  | nil => simp [upsert, List.lookup]
  | cons hd tl ih =>
    obtain ⟨k0, v0⟩ := hd
    by_cases hk : k0 = k
    · simp [upsert, hk, List.lookup]
    · have hk2 : ¬(k == k0) = true := by
        simp only [beq_iff_eq]
        exact fun h => hk h.symm
      simp [upsert, hk, List.lookup, hk2, ih]

/-- Unfolding of the weighted-average loop: folding `semStep` over a module
list adds, to either accumulator component, the corresponding sum over the
modules that are passed with a non-null average. -/
theorem foldl_semStep_eq (l : List Modul) (a b : ℤ) :
    l.foldl semStep (a, b) =
      (a + ((l.filter passedWithNote).map
        fun m => m.get_durchschnittsnote.getD 0 * m.ects).sum,
       b + ((l.filter passedWithNote).map fun m => m.ects).sum) := by
  induction l generalizing a b with
  | nil => simp
  | cons m t ih =>
    rw [List.foldl_cons]
    cases hb : m.ist_bestanden with
    | false =>
      have hp : passedWithNote m = false := by simp [passedWithNote, hb]
      have hstep : semStep (a, b) m = (a, b) := by simp [semStep, hb]
      rw [hstep, ih, List.filter_cons_of_neg (by simp [hp])]
    | true =>
      cases hn : m.get_durchschnittsnote with
      | none =>
        have hp : passedWithNote m = false := by
          simp [passedWithNote, hb, hn]
        have hstep : semStep (a, b) m = (a, b) := by simp [semStep, hb, hn]
        rw [hstep, ih, List.filter_cons_of_neg (by simp [hp])]
      | some note =>
        have hp : passedWithNote m = true := by
          simp [passedWithNote, hb, hn]
        have hstep : semStep (a, b) m =
            (a + note * m.ects, b + m.ects) := by simp [semStep, hb, hn]
        rw [hstep, ih, List.filter_cons_of_pos (by simp [hp])]
        simp [hn, add_assoc]

/-- Away from a midpoint, the two tie rules round identically. -/
theorem roundFrac_agree (num den : ℤ) (h : roundTie num den = false) :
    roundHalfEvenFrac num den = roundHalfUpFrac num den := by
  have hne : 2 * (num - Int.fdiv num den * den) ≠ den := by
    simpa [roundTie] using h
  by_cases h1 : 2 * (num - Int.fdiv num den * den) < den
  · simp [roundHalfEvenFrac, roundHalfUpFrac, h1]
  · have h2 : den < 2 * (num - Int.fdiv num den * den) := by omega
    simp [roundHalfEvenFrac, roundHalfUpFrac, h1, h2]

/-- The specification-side and implementation-side module averages are
defined (non-null) on exactly the same modules. -/
theorem spec_averageGrade_isSome (m : Modul) :
    (spec_averageGrade m).isSome = m.get_durchschnittsnote.isSome := by
  unfold spec_averageGrade Modul.get_durchschnittsnote
  by_cases he : (m.pruefungsleistungen.filterMap fun pl => pl.note).isEmpty
  · simp [he]
  · simp [he]

/-- On a tie-free module with a non-null average, the specification-side
average equals the implementation's. -/
theorem spec_averageGrade_eq (m : Modul) (htf : modulMeanTieFree m = true)
    (hs : m.get_durchschnittsnote.isSome = true) :
    spec_averageGrade m = m.get_durchschnittsnote := by
  unfold spec_averageGrade Modul.get_durchschnittsnote
  unfold Modul.get_durchschnittsnote at hs
  unfold modulMeanTieFree at htf
  by_cases he : (m.pruefungsleistungen.filterMap fun pl => pl.note).isEmpty
  · simp [he] at hs
  · simp only [he, Bool.false_or, Bool.not_eq_eq_eq_not, Bool.not_true] at htf
    rw [if_neg (by simp [he]), if_neg (by simp [he]),
      roundFrac_agree _ _ htf]

/-- A sum of positive integers over a nonempty list is positive. -/
theorem list_sum_pos (l : List ℤ) (h : ∀ x ∈ l, 0 < x) (hne : l ≠ []) :
    0 < l.sum := by
  induction l with
  | nil => exact absurd rfl hne
  | cons x t ih =>
    rw [List.sum_cons]
    rcases List.eq_nil_or_concat t with ht | _
    · subst ht
      simpa using h x (by simp)
    · have hx : 0 < x := h x (by simp)
      have ht2 : 0 < t.sum := by
        apply ih
        · intro y hy
          exact h y (by simp [hy])
        · rintro rfl
          simp_all
      omega

/-! Claim theorems. -/

/-- C1: For the hardcoded sample program (one semester, five 5-credit
modules, four passed with grades 2.0, 3.3, 2.0, 2.0, one with an ungraded
portfolio, target grade 2.0, target duration 8 semesters):
`berechne_gesamt_ects` = 20, `berechne_gesamtnote` = 2.3 (23 tenths),
`ist_im_zeitplan` = true and `ziel_erreicht` = false; the program is the
active program of the controller's logged-in user. -/
theorem claim1_sample_program_aggregates :
    create_iu_medizinische_informatik_data.current_user = some sample_user ∧
    sample_user.get_aktueller_studiengang = some sample_studiengang ∧
    sample_studiengang.berechne_gesamt_ects = 20 ∧
    sample_studiengang.berechne_gesamtnote = some 23 ∧
    gradeValue 23 = 2.3 ∧
    sample_studiengang.ist_im_zeitplan = true ∧
    sample_studiengang.ziel_erreicht = false := by
  refine ⟨rfl, by decide, by decide, by decide, ?_, by decide, by decide⟩
  norm_num [gradeValue]

/-- C2: For every assessment and every grade value outside the permitted
set, the `note` setter raises and leaves the stored grade and status
unchanged; setting `None` clears the grade and resets the status to
"Offen". -/
theorem claim2_setNote_rejects_invalid_and_null_clears :
    (∀ (pl : Pruefungsleistung) (v : ℤ), v ∉ gueltige_noten →
      pl.setNote (some v) = (some ("Ungültige Note: " ++ tenthsRepr v), pl)) ∧
    (∀ pl : Pruefungsleistung,
      pl.setNote none = (none, { pl with note := none, status := "Offen" })) := by
  constructor
  · intro pl v hv
    simp [Pruefungsleistung.setNote, hv]
  · intro pl
    rfl

/-- Witness for C2: the grade 2.5 (25 tenths) is not permitted, and setting
it on the sample portfolio assessment raises and leaves the assessment
unchanged. -/
theorem claim2_witness :
    (25 : ℤ) ∉ gueltige_noten ∧
    sample_portfolio_oop.setNote (some 25) =
      (some ("Ungültige Note: " ++ tenthsRepr 25), sample_portfolio_oop) :=
  ⟨by decide,
   claim2_setNote_rejects_invalid_and_null_clears.1 sample_portfolio_oop 25
     (by decide)⟩

/-- C3 counterexample: `create_user` on an id that is already present does
not fail — it returns the newly constructed student and silently replaces
the stored entry (the state already holds "Erste Person" under the id, and
after the call the mapping holds "Zweite Person"). -/
theorem claim3_counterexample :
    duplicate_id_state.users.lookup "IU14125513" =
      some (User.make "IU14125513" "Erste Person" "erste@example.com"
        "Student") ∧
    (duplicate_id_state.create_user "IU14125513" "Zweite Person"
        "zweite@example.com" "Student").1.users.lookup "IU14125513" =
      some (User.make "IU14125513" "Zweite Person" "zweite@example.com"
        "Student") ∧
    (duplicate_id_state.create_user "IU14125513" "Zweite Person"
        "zweite@example.com" "Student").2 =
      User.make "IU14125513" "Zweite Person" "zweite@example.com" "Student" := by
  refine ⟨by decide, by decide, by decide⟩

/-- C3 amended: when a student with the same id is already present,
`create_user` does not fail with a DuplicateId error; it unconditionally
constructs the new student, silently overwrites the mapping entry, and
returns the new student. -/
theorem claim3_create_user_overwrites (c : DashboardController)
    (user_id name email rolle : String) (u : User)
    (_h : c.users.lookup user_id = some u) :
    (c.create_user user_id name email rolle).1.users.lookup user_id =
      some (User.make user_id name email rolle) ∧
    (c.create_user user_id name email rolle).2 =
      User.make user_id name email rolle := by
  refine ⟨?_, rfl⟩
  simpa [DashboardController.create_user] using
    lookup_upsert c.users user_id (User.make user_id name email rolle)

/-- Witness for C3's amended theorem, at the concrete duplicate-id state. -/
theorem claim3_witness :
    duplicate_id_state.users.lookup "IU14125513" =
      some (User.make "IU14125513" "Erste Person" "erste@example.com"
        "Student") ∧
    (duplicate_id_state.create_user "IU14125513" "Zweite Person"
        "zweite@example.com" "Student").1.users.lookup "IU14125513" =
      some (User.make "IU14125513" "Zweite Person" "zweite@example.com"
        "Student") := by
  have h : duplicate_id_state.users.lookup "IU14125513" =
      some (User.make "IU14125513" "Erste Person" "erste@example.com"
        "Student") := by decide
  exact ⟨h, (claim3_create_user_overwrites duplicate_id_state "IU14125513"
    "Zweite Person" "zweite@example.com" "Student" _ h).1⟩

/-- C4 counterexample: the `Semester` constructor accepts an end date
earlier than the start date and stores both unchanged — the claimed
invariant is violated by a constructible state and nothing is rejected. -/
theorem claim4_counterexample :
    (Semester.make 1 ⟨2025, 6, 30⟩ ⟨2025, 1, 1⟩).startdatum = ⟨2025, 6, 30⟩ ∧
    (Semester.make 1 ⟨2025, 6, 30⟩ ⟨2025, 1, 1⟩).enddatum = ⟨2025, 1, 1⟩ ∧
    Date.lt (Semester.make 1 ⟨2025, 6, 30⟩ ⟨2025, 1, 1⟩).enddatum
      (Semester.make 1 ⟨2025, 6, 30⟩ ⟨2025, 1, 1⟩).startdatum = true :=
  ⟨rfl, rfl, by decide⟩

/-- C4 amended: the `Semester` constructor performs no validation at all:
for every sequence number and every pair of dates — including an end date
earlier than the start date — construction succeeds and stores the fields
exactly as given. -/
theorem claim4_constructor_stores_unvalidated (nummer : ℤ)
    (startdatum enddatum : Date) :
    (Semester.make nummer startdatum enddatum).nummer = nummer ∧
    (Semester.make nummer startdatum enddatum).startdatum = startdatum ∧
    (Semester.make nummer startdatum enddatum).enddatum = enddatum ∧
    (Semester.make nummer startdatum enddatum).module = [] :=
  ⟨rfl, rfl, rfl, rfl⟩

/-- C5 counterexample: for the specification's own example — two passed
modules with credits 5 / average 2.0 and credits 5 / average 3.3 — the code
yields 2.6 (26 tenths), not the claimed 2.7: the exact quotient is 2.65 and
Python's round-half-to-even rounds it down (the float evaluation of the
source agrees, since the double closest to 2.65 lies below it). -/
theorem claim5_counterexample :
    exampleModulA.ist_bestanden = true ∧
    exampleModulA.get_durchschnittsnote = some 20 ∧
    exampleModulB.ist_bestanden = true ∧
    exampleModulB.get_durchschnittsnote = some 33 ∧
    exampleSemester.durchschnittsnote = some 26 ∧
    exampleSemester.durchschnittsnote ≠ some 27 ∧
    gradeValue 26 = 2.6 := by
  refine ⟨by decide, by decide, by decide, by decide, by decide, by decide, ?_⟩
  norm_num [gradeValue]

/-- C5 amended: for every semester whose modules all have positive credits,
whose contributing modules' exact mean grades are not midpoints between two
tenths, and whose weighted quotient is not such a midpoint,
`durchschnittsnote` equals the specification's formula — the weighted sum of
the averages of the passed modules with a non-null average divided by their
credit total, rounded to the nearest tenth (on this tie-free domain every
round-to-nearest rule, including the program's float rounding, coincides,
which is why the half-even/half-up mismatch between the two sides is
bridgeable exactly here) — and is null exactly when no such module exists.
At a midpoint the float result depends on the binary double representation
and can be either adjacent tenth; the specification's own two-module
example hits the midpoint 2.65 and the program returns 2.6, not the claimed
2.7 (`claim5_counterexample`). -/
theorem claim5_weighted_average_formula (s : Semester)
    (hects : (s.module.all fun m => decide (0 < m.ects)) = true)
    (hmod : ((s.module.filter passedWithNote).all modulMeanTieFree) = true)
    (hsem : semTieFree s = true) :
    s.durchschnittsnote = spec_weightedAverageGrade s := by
  have hfilter : s.module.filter spec_passedWithNote
      = s.module.filter passedWithNote := by
    apply List.filter_congr
    intro m _
    unfold spec_passedWithNote passedWithNote
    rw [spec_averageGrade_isSome]
  have havg : ∀ m ∈ s.module.filter passedWithNote,
      spec_averageGrade m = m.get_durchschnittsnote := by
    intro m hm
    apply spec_averageGrade_eq m (List.all_eq_true.mp hmod m hm)
    have hp := (List.mem_filter.mp hm).2
    simp only [passedWithNote, Bool.and_eq_true] at hp
    exact hp.2
  unfold Semester.durchschnittsnote spec_weightedAverageGrade
  rw [hfilter, foldl_semStep_eq]
  simp only [zero_add]
  have hmap : ((s.module.filter passedWithNote).map
        fun m => (spec_averageGrade m).getD 0 * m.ects)
      = ((s.module.filter passedWithNote).map
        fun m => m.get_durchschnittsnote.getD 0 * m.ects) := by
    apply List.map_congr_left
    intro m hm
    rw [havg m hm]
  rw [hmap]
  by_cases hPe : (s.module.filter passedWithNote).isEmpty
  · rw [List.isEmpty_iff] at hPe
    simp [hPe]
  · have hPb : (s.module.filter passedWithNote).isEmpty = false := by
      cases hq : (s.module.filter passedWithNote).isEmpty
      · rfl
      · exact absurd (List.isEmpty_iff.mp hq) (by rw [List.isEmpty_iff] at hPe; exact hPe)
    rw [List.isEmpty_iff] at hPe
    have htie : roundTie ((s.module.filter passedWithNote).map
          (fun m => m.get_durchschnittsnote.getD 0 * m.ects)).sum
        (((s.module.filter passedWithNote).map fun m => m.ects).sum) = false := by
      unfold semTieFree at hsem
      simp only [hPb, Bool.false_or, Bool.not_eq_eq_eq_not, Bool.not_true] at hsem
      exact hsem
    have hpos : 0 < ((s.module.filter passedWithNote).map
        fun m => m.ects).sum := by
      apply list_sum_pos
      · intro x hx
        obtain ⟨m, hm, rfl⟩ := List.mem_map.mp hx
        have hmem : m ∈ s.module := List.mem_of_mem_filter hm
        have := List.all_eq_true.mp hects m hmem
        exact of_decide_eq_true this
      · simp [hPe]
    rw [if_pos hpos, if_neg (by simp [hPe]), roundFrac_agree _ _ htie]

/-- Witness for C5's amended theorem, at the sample first semester (all
hypotheses hold there: positive credits everywhere, all contributing module
means are single grades, and the weighted quotient 46.5/20 = 2.325 is not a
midpoint). -/
theorem claim5_witness :
    ((sample_semester1.module.all fun m => decide (0 < m.ects)) = true) ∧
    ((sample_semester1.module.filter passedWithNote).all modulMeanTieFree
      = true) ∧
    (semTieFree sample_semester1 = true) ∧
    sample_semester1.durchschnittsnote =
      spec_weightedAverageGrade sample_semester1 :=
  ⟨by decide, by decide, by decide,
   claim5_weighted_average_formula sample_semester1 (by decide) (by decide)
     (by decide)⟩

/-- C6: a module with no assessments is not passed, has status "Nicht
begonnen", earns 0 credits and has a null average grade. -/
theorem claim6_empty_module (m : Modul) (h : m.pruefungsleistungen = []) :
    m.ist_bestanden = false ∧
    m.get_status = ModulStatus.NICHT_BEGONNEN ∧
    m.erreichte_ects = 0 ∧
    m.get_durchschnittsnote = none := by
  refine ⟨?_, ?_, ?_, ?_⟩ <;>
    simp [Modul.ist_bestanden, Modul.get_status, Modul.erreichte_ects,
      Modul.get_durchschnittsnote, h]

/-- Witness for C6 at a concrete freshly constructed module. -/
theorem claim6_witness :
    (Modul.make "Leeres Modul" 5 true).pruefungsleistungen = [] ∧
    (Modul.make "Leeres Modul" 5 true).ist_bestanden = false ∧
    (Modul.make "Leeres Modul" 5 true).get_status =
      ModulStatus.NICHT_BEGONNEN ∧
    (Modul.make "Leeres Modul" 5 true).erreichte_ects = 0 ∧
    (Modul.make "Leeres Modul" 5 true).get_durchschnittsnote = none := by
  have h := claim6_empty_module (Modul.make "Leeres Modul" 5 true) rfl
  exact ⟨rfl, h.1, h.2.1, h.2.2.1, h.2.2.2⟩

/-- C7: on the permitted set, `ist_bestanden` holds exactly for grades at
most 4.0 (40 tenths); in particular 4.0 passes and 5.0 fails. -/
theorem claim7_isPassing_iff :
    (∀ g : ℤ, g ∈ gueltige_noten →
      (IUBewertungsmassstab.ist_bestanden g = true ↔ g ≤ 40)) ∧
    IUBewertungsmassstab.ist_bestanden 40 = true ∧
    IUBewertungsmassstab.ist_bestanden 50 = false ∧
    gradeValue 40 = 4.0 ∧ gradeValue 50 = 5.0 := by
  refine ⟨?_, by decide, by decide, by norm_num [gradeValue],
    by norm_num [gradeValue]⟩
  intro g _
  simp [IUBewertungsmassstab.ist_bestanden, BESTANDEN_GRENZE]

/-- Witness for C7: 4.0 (40 tenths) is in the permitted set and the
equivalence holds there. -/
theorem claim7_witness :
    (40 : ℤ) ∈ gueltige_noten ∧
    (IUBewertungsmassstab.ist_bestanden 40 = true ↔ (40 : ℤ) ≤ 40) :=
  ⟨by decide, claim7_isPassing_iff.1 40 (by decide)⟩

/-- C8: whenever the registry has a logged-in student whose active program
exists, the `fortschritt` section of the dashboard snapshot carries exactly
`berechne_gesamt_ects`, `berechne_gesamtnote`, `ist_im_zeitplan` and
`ziel_erreicht` computed directly on that program (and the snapshot carries
the student's identity fields and the program's dictionary tree). -/
theorem claim8_dashboard_matches_program (c : DashboardController) (u : User)
    (sg : Studiengang) (hu : c.current_user = some u)
    (hsg : u.get_aktueller_studiengang = some sg) :
    c.get_dashboard_data = some (DashboardDict.data
      { name := u.name, email := u.email, rolle := u.rolle }
      sg.to_dict
      { gesamt_ects := sg.berechne_gesamt_ects,
        gesamtnote := sg.berechne_gesamtnote,
        im_zeitplan := sg.ist_im_zeitplan,
        ziel_erreicht := sg.ziel_erreicht }) := by
  simp [DashboardController.get_dashboard_data, hu, User.zeige_dashboard, hsg]

/-- Witness for C8 at the sample controller state. -/
theorem claim8_witness :
    create_iu_medizinische_informatik_data.current_user = some sample_user ∧
    sample_user.get_aktueller_studiengang = some sample_studiengang ∧
    create_iu_medizinische_informatik_data.get_dashboard_data =
      some (DashboardDict.data
        { name := sample_user.name, email := sample_user.email,
          rolle := sample_user.rolle }
        sample_studiengang.to_dict
        { gesamt_ects := sample_studiengang.berechne_gesamt_ects,
          gesamtnote := sample_studiengang.berechne_gesamtnote,
          im_zeitplan := sample_studiengang.ist_im_zeitplan,
          ziel_erreicht := sample_studiengang.ziel_erreicht }) := by
  have hsg : sample_user.get_aktueller_studiengang = some sample_studiengang :=
    by decide
  exact ⟨rfl, hsg,
    claim8_dashboard_matches_program create_iu_medizinische_informatik_data
      sample_user sample_studiengang rfl hsg⟩

/-- C9: the `Pruefungsleistung` constructor stores any non-null initial
grade verbatim — the validating setter is bypassed, so no InvalidGrade error
can occur even for values outside the permitted set — and the status field
stays "Offen" rather than being recomputed; concretely, constructing an exam
with the out-of-set grade 9.9 (99 tenths) succeeds with status "Offen". -/
theorem claim9_constructor_bypasses_setter :
    (∀ (typ : PruefungsleistungsTyp) (v : ℤ) (datum : Option Date)
      (versuch : ℤ) (details : PruefungsDetails),
      (Pruefungsleistung.make typ (some v) datum versuch details).note =
        some v ∧
      (Pruefungsleistung.make typ (some v) datum versuch details).status =
        "Offen") ∧
    (99 : ℤ) ∉ gueltige_noten ∧
    (Klausur.make 120 (some 99) none 1).note = some 99 ∧
    (Klausur.make 120 (some 99) none 1).status = "Offen" :=
  ⟨fun _ _ _ _ _ => ⟨rfl, rfl⟩, by decide, rfl, rfl⟩

/-- C10: with a logged-in student owning zero programs, `get_dashboard_data`
returns the error-only record (not null, not a data snapshot); it returns
null exactly in the no-logged-in-student case. -/
theorem claim10_no_program_yields_error_record :
    (∀ (c : DashboardController) (u : User), c.current_user = some u →
      u.studiengaenge = [] →
      c.get_dashboard_data =
        some (DashboardDict.error "Kein Studiengang gefunden")) ∧
    (∀ c : DashboardController, c.current_user = none →
      c.get_dashboard_data = none) := by
  constructor
  · intro c u hu hsq
    simp [DashboardController.get_dashboard_data, hu, User.zeige_dashboard,
      User.get_aktueller_studiengang, hsq]
  · intro c hc
    simp [DashboardController.get_dashboard_data, hc]

/-- Witness for C10: a concrete state with a program-less logged-in student
yields the error record, and the freshly constructed controller (nobody
logged in) yields null. -/
theorem claim10_witness :
    no_program_state.current_user = some no_program_user ∧
    no_program_user.studiengaenge = [] ∧
    no_program_state.get_dashboard_data =
      some (DashboardDict.error "Kein Studiengang gefunden") ∧
    DashboardController.make.current_user = none ∧
    DashboardController.make.get_dashboard_data = none :=
  ⟨rfl, rfl,
   claim10_no_program_yields_error_record.1 no_program_state no_program_user
     rfl rfl,
   rfl,
   claim10_no_program_yields_error_record.2 DashboardController.make rfl⟩

end StudienDashboard
